import Mathlib

/-!
Shallow embedding of the authentication/session-lifecycle core of
`protonvpn-wg-confgen` (Go), covering:

* `internal/constants` — API response codes and `IsSuccessCode`;
* `internal/auth/session.go` — `SessionStore.Save`, `SessionStore.Load`,
  `SessionStore.Delete`, `RefreshSession`, `VerifySession`;
* `internal/auth` client (`flags.go` bundle) — `Authenticate`,
  `handleExistingSession`, `tryExistingSession`, `handleSessionRefresh`,
  `performFreshAuth`, `upgradeSessionIfNeeded`, `checkSessionScopes`,
  `saveSessionIfEnabled`, `ensureUsername`, `ensurePassword`,
  `get2FACode`, `getAuthInfo`, `sendAuthRequest`, `submit2FA`.

Modelling conventions:

* Go `time.Time` / `time.Duration` are both `Int` nanoseconds (Go's
  internal representation); the several `time.Now()` reads inside one
  operation are collapsed to a single `now` parameter.
* Binary SRP values that the Go code base64-encodes before comparing or
  sending are carried directly in their encoded string form.
* Network I/O is an oracle: each remote operation's response is a `Wire`
  value (network failure, or an HTTP status plus an optionally parsable
  body), and the pure Go response-handling code is embedded verbatim over
  it.  Terminal prompts are oracle strings; the SRP proof engine (external
  library `go-srp`) is an oracle function.
* The single on-disk session file is a `Store := Option FileContent`;
  `FileContent.garbage` stands for bytes that `json.Unmarshal` rejects.
* The trace of remote calls made during a run is a `List Event`.
* `timeutil.ParseSessionDuration` and the numeric value of
  `constants.SessionRefreshDays` are not part of the sources; the parsed
  session duration is carried as `Config.sessionDuration : Int` and the
  refresh threshold as an explicit `refreshDays` parameter.
-/

/-- Nanoseconds per second (`time.Second`). -/
def nsPerSecond : Int := 1000000000

/-- Nanoseconds per hour (`time.Hour`). -/
def hourNs : Int := 3600 * nsPerSecond

/-- API response code `constants.APICodeSuccess`. -/
def CodeSuccess : Int := 1000

/-- API response code `constants.APICodeMultiStatus` ("multi-status"). -/
def APICodeMultiStatus : Int := 1001

/-- `constants.IsSuccessCode`: code 1000 or 1001 counts as success. -/
def IsSuccessCode (code : Int) : Bool :=
  code == CodeSuccess || code == APICodeMultiStatus

/-- Error code `auth.CodeMailboxPasswordError` (legacy 2-password mode). -/
def CodeMailboxPasswordError : Int := 10013

/-- `constants.EnabledTrue`. -/
def EnabledTrue : Int := 1

/-- `api.Session`: the durable authentication artifact (fields used by the
auth core). -/
structure Session where
  accessToken : String
  refreshToken : String
  uid : String
  scopes : List String
  expiresIn : Int
  serverProof : String
  code : Int
deriving Repr, DecidableEq

/-- Second-factor flags inside `api.AuthInfoResponse` (`TwoFA.Enabled`,
`TwoFA.TOTP`). -/
structure TwoFAInfo where
  enabled : Int
  totp : Int
deriving Repr, DecidableEq

/-- `api.AuthInfoResponse`: SRP parameters returned by `/core/v4/auth/info`. -/
structure AuthInfoResponse where
  code : Int
  version : Int
  salt : String
  modulus : String
  serverEphemeral : String
  srpSession : String
  twoFA : TwoFAInfo
deriving Repr, DecidableEq

/-- Body of the `/core/v4/auth/2fa` response parsed by `submit2FA`. -/
structure TwoFAResp where
  code : Int
  scopes : List String
  errorMsg : String
deriving Repr, DecidableEq

/-- `srp.Proofs` (external `go-srp`): client ephemeral, client proof and
expected server proof, carried in their base64 wire form. -/
structure Proofs where
  clientEphemeral : String
  clientProof : String
  expectedServerProof : String
deriving Repr, DecidableEq

/-- `auth.SavedSession`: session plus persistence metadata. -/
structure SavedSession where
  session : Session
  username : String
  savedAt : Int
  expiresAt : Int
deriving Repr, DecidableEq

/-- Contents of the session file: either bytes parsing to a `SavedSession`,
or bytes `json.Unmarshal` rejects. -/
inductive FileContent
  | parsable (s : SavedSession)
  | garbage (raw : String)
deriving Repr, DecidableEq

/-- The session store: at most one file at the fixed path. -/
abbrev Store := Option FileContent

/-- Outcome of one HTTP round trip: network failure, or a status code with
an optionally parsable body (`none` = `json.Unmarshal` fails). -/
inductive Wire (α : Type)
  | netErr
  | resp (status : Int) (body : Option α)
deriving Repr, DecidableEq

/-- Decidable equality for `Except` results, so concrete runs can be
checked by `decide`. -/
instance {ε α : Type} [DecidableEq ε] [DecidableEq α] :
    DecidableEq (Except ε α) := fun a b =>
  match a, b with
  | Except.ok x, Except.ok y =>
    if h : x = y then isTrue (by rw [h]) else isFalse (by simp [h])
  | Except.error x, Except.error y =>
    if h : x = y then isTrue (by rw [h]) else isFalse (by simp [h])
  | Except.ok _, Except.error _ => isFalse (by simp)
  | Except.error _, Except.ok _ => isFalse (by simp)

/-- Distinguished error outcomes of the auth core (Go returns `error`
values built with `fmt.Errorf` / `auth.NewError`; this type keeps the
distinctions the claims need). -/
inductive AuthErr
  | netFailure
  | httpError (status : Int)
  | parseError
  | authInfoCode (code : Int)
  | emptyModulus
  | emptyServerEphemeral
  | srpError (msg : String)
  | mailboxPasswordMode
  | apiError (code : Int)
  | serverProofMismatch
  | emptyCode
  | nonNumericCode
  | emptyUsername
  | twoFAFailed (code : Int)
  | refreshFailed (status : Int)
deriving Repr, DecidableEq

/-- Remote calls and prompts observable during a run. -/
inductive Event
  | callAuthInfo
  | callAuth
  | call2FA
  | callRefresh
  | callVerify
deriving Repr, DecidableEq

/-- `config.Config` fields driving the auth core.  `sessionDuration` is the
value `timeutil.ParseSessionDuration(cfg.SessionDuration)` yields (0 for
the "no preference" sentinel; the parser itself is outside the sources). -/
structure Config where
  username : String
  password : String
  clearSession : Bool
  noSession : Bool
  forceRefresh : Bool
  sessionDuration : Int
deriving Repr, DecidableEq

/-- The run's environment: terminal prompt inputs, the SRP proof engine,
and the response each remote endpoint would give. -/
structure Oracle where
  promptUsername : String
  promptPassword : String
  prompt2FA : String
  srp : AuthInfoResponse → String → String → Except String Proofs
  authInfoResp : Wire AuthInfoResponse
  authResp : Wire Session
  twoFAResp : Wire TwoFAResp
  refreshResp : Wire Session
  verifyResp : Wire Unit

/-- `SessionStore.Save`: computes the absolute expiry — the server-declared
expiry `now + ExpiresIn` seconds when `duration` is 0, otherwise the
user-requested expiry capped at the server-declared one — and writes the
`SavedSession`. -/
def SessionStore.save (now : Int) (session : Session) (username : String)
    (duration : Int) : SavedSession :=
  let apiExpiration := now + session.expiresIn * nsPerSecond
  let expiresAt :=
    if duration = 0 then
      apiExpiration
    else
      let userExpiration := now + duration
      if apiExpiration < userExpiration then apiExpiration else userExpiration
  { session := session, username := username, savedAt := now,
    expiresAt := expiresAt }

/-- `SessionStore.Load`: absent when no file; unmarshal failure is an
error returned to the caller (file left in place); a file for another
username is absent (file left in place); an expired file is deleted and
absent; otherwise the session and its time until expiry. -/
def SessionStore.load (now : Int) (username : String) (st : Store) :
    Except AuthErr (Option (Session × Int)) × Store :=
  match st with
  | none => (Except.ok none, none)
  | some (FileContent.garbage _) => (Except.error AuthErr.parseError, st)
  | some (FileContent.parsable ss) =>
    if ss.username ≠ username then
      (Except.ok none, st)
    else if ss.expiresAt < now then
      (Except.ok none, none)
    else
      (Except.ok (some (ss.session, ss.expiresAt - now)), st)

/-- `getAuthInfo`: response handling of `/core/v4/auth/info` — HTTP 200,
parsable body, code exactly `CodeSuccess`, non-empty modulus and server
ephemeral. -/
def getAuthInfo (w : Wire AuthInfoResponse) : Except AuthErr AuthInfoResponse :=
  match w with
  | Wire.netErr => Except.error AuthErr.netFailure
  | Wire.resp status body =>
    if status ≠ 200 then Except.error (AuthErr.httpError status)
    else
      match body with
      | none => Except.error AuthErr.parseError
      | some authInfo =>
        if authInfo.code ≠ CodeSuccess then
          Except.error (AuthErr.authInfoCode authInfo.code)
        else if authInfo.modulus = "" then
          Except.error AuthErr.emptyModulus
        else if authInfo.serverEphemeral = "" then
          Except.error AuthErr.emptyServerEphemeral
        else
          Except.ok authInfo

/-- `sendAuthRequest`: response handling of `/core/v4/auth` — HTTP 200,
parsable body, the distinguished legacy 2-password code fails terminally,
any other non-`CodeSuccess` code fails with `NewError(code)`. -/
def sendAuthRequest (w : Wire Session) : Except AuthErr Session :=
  match w with
  | Wire.netErr => Except.error AuthErr.netFailure
  | Wire.resp status body =>
    if status ≠ 200 then Except.error (AuthErr.httpError status)
    else
      match body with
      | none => Except.error AuthErr.parseError
      | some session =>
        if session.code = CodeMailboxPasswordError then
          Except.error AuthErr.mailboxPasswordMode
        else if session.code ≠ CodeSuccess then
          Except.error (AuthErr.apiError session.code)
        else
          Except.ok session

/-- `submit2FA`: response handling of `/core/v4/auth/2fa` — HTTP 200,
parsable body, code exactly `CodeSuccess`; yields the updated scope set. -/
def submit2FA (w : Wire TwoFAResp) : Except AuthErr (List String) :=
  match w with
  | Wire.netErr => Except.error AuthErr.netFailure
  | Wire.resp status body =>
    if status ≠ 200 then Except.error (AuthErr.httpError status)
    else
      match body with
      | none => Except.error AuthErr.parseError
      | some r =>
        if r.code ≠ CodeSuccess then
          Except.error (AuthErr.twoFAFailed r.code)
        else
          Except.ok r.scopes

/-- `RefreshSession`: response handling of `/auth/refresh` — success only
when the HTTP status is 200, the body parses, and `IsSuccessCode` accepts
the payload code (1000 or 1001); every other outcome is a refresh
failure. -/
def RefreshSession (w : Wire Session) : Except AuthErr Session :=
  match w with
  | Wire.netErr => Except.error AuthErr.netFailure
  | Wire.resp status body =>
    if status = 200 then
      match body with
      | none => Except.error AuthErr.parseError
      | some session =>
        if IsSuccessCode session.code then Except.ok session
        else Except.error (AuthErr.refreshFailed status)
    else Except.error (AuthErr.refreshFailed status)

/-- `VerifySession`: a network failure is invalid, HTTP 401 is invalid,
any 2xx is valid, anything else is invalid. -/
def VerifySession (w : Wire Unit) : Bool :=
  match w with
  | Wire.netErr => false
  | Wire.resp status _ =>
    if status = 401 then false
    else decide (200 ≤ status ∧ status < 300)

/-- `strings.TrimSpace`: drop leading and trailing whitespace (modelled
over the character list so concrete runs reduce). -/
def trimSpace (s : String) : String :=
  String.mk
    (((s.toList.dropWhile Char.isWhitespace).reverse.dropWhile
        Char.isWhitespace).reverse)

/-- `get2FACode`: trims the prompted line, then rejects an empty code and
any code containing a character outside `'0'..'9'`. -/
def get2FACode (input : String) : Except AuthErr String :=
  let code := trimSpace input
  if code = "" then Except.error AuthErr.emptyCode
  else if code.toList.any (fun c => decide (c < '0') || decide ('9' < c)) then
    Except.error AuthErr.nonNumericCode
  else
    Except.ok code

/-- `checkSessionScopes`: one pass over the scope list setting the
`hasVPN` / `hasTwoFactor` flags. -/
def checkSessionScopes (session : Session) : Bool × Bool :=
  session.scopes.foldl
    (fun acc scope =>
      if scope = "vpn" then (true, acc.2)
      else if scope = "twofactor" then (acc.1, true)
      else acc)
    (false, false)

/-- `upgradeSessionIfNeeded`: skip when the session already has the VPN
scope or lacks the twofactor scope; otherwise prompt for a 2FA code
(failing locally on a bad code, with no remote call), submit it, and
replace the session's scopes with the returned set. -/
def upgradeSessionIfNeeded (ora : Oracle) (session : Session) :
    Except AuthErr Session × List Event :=
  let (hasVPN, hasTwoFactor) := checkSessionScopes session
  if hasVPN || !hasTwoFactor then
    (Except.ok session, [])
  else
    match get2FACode ora.prompt2FA with
    | Except.error e => (Except.error e, [])
    | Except.ok _code =>
      match submit2FA ora.twoFAResp with
      | Except.error e => (Except.error e, [Event.call2FA])
      | Except.ok updatedScopes =>
        (Except.ok { session with scopes := updatedScopes }, [Event.call2FA])

/-- `performFreshAuth`: fetch auth parameters, run the SRP engine, collect
a 2FA code eagerly when the auth parameters flag TOTP second factor,
submit the proofs, and verify the returned server proof against the
locally expected one. -/
def performFreshAuth (cfg : Config) (ora : Oracle) :
    Except AuthErr Session × List Event :=
  match getAuthInfo ora.authInfoResp with
  | Except.error e => (Except.error e, [Event.callAuthInfo])
  | Except.ok authInfo =>
    match ora.srp authInfo cfg.username cfg.password with
    | Except.error m => (Except.error (AuthErr.srpError m), [Event.callAuthInfo])
    | Except.ok proofs =>
      let sendAndCheck : Except AuthErr Session × List Event :=
        match sendAuthRequest ora.authResp with
        | Except.error e => (Except.error e, [Event.callAuthInfo, Event.callAuth])
        | Except.ok session =>
          if session.serverProof ≠ proofs.expectedServerProof then
            (Except.error AuthErr.serverProofMismatch,
             [Event.callAuthInfo, Event.callAuth])
          else
            (Except.ok session, [Event.callAuthInfo, Event.callAuth])
      if authInfo.twoFA.enabled = EnabledTrue ∧ authInfo.twoFA.totp = EnabledTrue then
        match get2FACode ora.prompt2FA with
        | Except.error e => (Except.error e, [Event.callAuthInfo])
        | Except.ok _code => sendAndCheck
      else
        sendAndCheck

/-- `handleSessionRefresh`: attempt the token refresh; on failure delete
the persisted session and propagate the error; on success save the
refreshed session (unless persistence is disabled). -/
def handleSessionRefresh (cfg : Config) (ora : Oracle) (now : Int)
    (_savedSession : Session) (st : Store) :
    Except AuthErr Session × Store × List Event :=
  match RefreshSession ora.refreshResp with
  | Except.error e => (Except.error e, none, [Event.callRefresh])
  | Except.ok refreshedSession =>
    if !cfg.noSession then
      (Except.ok refreshedSession,
       some (FileContent.parsable
         (SessionStore.save now refreshedSession cfg.username cfg.sessionDuration)),
       [Event.callRefresh])
    else
      (Except.ok refreshedSession, st, [Event.callRefresh])

/-- `tryExistingSession`: load the saved session, then in order —
force-refresh, refresh when expiry is positive and below the threshold,
reuse when `VerifySession` succeeds, otherwise delete and fall through. -/
def tryExistingSession (cfg : Config) (ora : Oracle) (now : Int)
    (refreshDays : Int) (st : Store) :
    Except AuthErr (Option Session) × Store × List Event :=
  match SessionStore.load now cfg.username st with
  | (Except.error e, st') => (Except.error e, st', [])
  | (Except.ok none, st') => (Except.ok none, st', [])
  | (Except.ok (some (savedSession, timeUntilExpiry)), st') =>
    if cfg.forceRefresh then
      let (r, st'', ev) := handleSessionRefresh cfg ora now savedSession st'
      (r.map some, st'', ev)
    else if timeUntilExpiry < refreshDays * 24 * hourNs ∧ 0 < timeUntilExpiry then
      let (r, st'', ev) := handleSessionRefresh cfg ora now savedSession st'
      (r.map some, st'', ev)
    else if VerifySession ora.verifyResp then
      (Except.ok (some savedSession), st', [Event.callVerify])
    else
      (Except.ok none, none, [Event.callVerify])

/-- `handleExistingSession`: explicit clear deletes the store; disabled
persistence skips the store; otherwise any load/refresh error or absence
degrades to "no session". -/
def handleExistingSession (cfg : Config) (ora : Oracle) (now : Int)
    (refreshDays : Int) (st : Store) : Option Session × Store × List Event :=
  if cfg.clearSession then
    (none, none, [])
  else if cfg.noSession then
    (none, st, [])
  else
    match tryExistingSession cfg ora now refreshDays st with
    | (Except.ok (some s), st', ev) => (some s, st', ev)
    | (Except.ok none, st', ev) => (none, st', ev)
    | (Except.error _, st', ev) => (none, st', ev)

/-- `ensureUsername`: prompt when the configured username is empty; an
empty trimmed prompt input is a fatal error. -/
def ensureUsername (cfg : Config) (ora : Oracle) : Except AuthErr Config :=
  if cfg.username = "" then
    let username := trimSpace ora.promptUsername
    if username = "" then Except.error AuthErr.emptyUsername
    else Except.ok { cfg with username := username }
  else
    Except.ok cfg

/-- `ensurePassword`: prompt (masked) when the configured password is
empty; the entered value is stored without any emptiness check. -/
def ensurePassword (cfg : Config) (ora : Oracle) : Config :=
  if cfg.password = "" then { cfg with password := ora.promptPassword }
  else cfg

/-- `saveSessionIfEnabled`: persist the session under the configured
username and duration preference unless persistence is disabled. -/
def saveSessionIfEnabled (cfg : Config) (now : Int) (session : Session)
    (st : Store) : Store :=
  if cfg.noSession then st
  else
    some (FileContent.parsable
      (SessionStore.save now session cfg.username cfg.sessionDuration))

/-- Tail of `Authenticate` after the existing-session attempt came back
empty: ensure a password, perform fresh SRP authentication, upgrade the
scope set if needed, and persist. -/
def freshLoginPath (cfg : Config) (ora : Oracle) (now : Int)
    (st : Store) (ev : List Event) :
    Except AuthErr Session × Store × List Event :=
  let cfg2 := ensurePassword cfg ora
  match performFreshAuth cfg2 ora with
  | (Except.error e, ev2) => (Except.error e, st, ev ++ ev2)
  | (Except.ok session, ev2) =>
    match upgradeSessionIfNeeded ora session with
    | (Except.error e, ev3) => (Except.error e, st, ev ++ ev2 ++ ev3)
    | (Except.ok session', ev3) =>
      let st2 := saveSessionIfEnabled cfg2 now session' st
      (Except.ok session', st2, ev ++ ev2 ++ ev3)

/-- `Authenticate`: the full authentication flow — ensure a username, try
the existing session (returning it as-is on success), otherwise run the
fresh-login path. -/
def Authenticate (cfg0 : Config) (ora : Oracle) (now : Int)
    (refreshDays : Int) (st : Store) :
    Except AuthErr Session × Store × List Event :=
  match ensureUsername cfg0 ora with
  | Except.error e => (Except.error e, st, [])
  | Except.ok cfg1 =>
    match handleExistingSession cfg1 ora now refreshDays st with
    | (some session, st1, ev1) => (Except.ok session, st1, ev1)
    | (none, st1, ev1) => freshLoginPath cfg1 ora now st1 ev1

/-- Concrete session used by several witnesses. -/
def sessA : Session :=
  { accessToken := "at", refreshToken := "rt", uid := "uid1",
    scopes := ["vpn"], expiresIn := 86400, serverProof := "SP", code := 1000 }

/-- Saved session owned by "bob". -/
def ssBob : SavedSession :=
  { session := sessA, username := "bob", savedAt := 0, expiresAt := 100 }

/-- Fully valid auth-parameters body except that it carries the
multi-status code 1001. -/
def infoMulti : AuthInfoResponse :=
  { code := 1001, version := 4, salt := "salt", modulus := "mod",
    serverEphemeral := "eph", srpSession := "tok", twoFA := ⟨0, 0⟩ }

/-- Valid-looking session body with the multi-status code 1001. -/
def sessMulti : Session :=
  { accessToken := "at", refreshToken := "rt", uid := "uid1",
    scopes := ["vpn"], expiresIn := 86400, serverProof := "SP", code := 1001 }

/-- Auth parameters with the success code and second factor disabled. -/
def infoPlain : AuthInfoResponse :=
  { code := 1000, version := 4, salt := "salt", modulus := "mod",
    serverEphemeral := "eph", srpSession := "tok", twoFA := ⟨0, 0⟩ }

/-- Session body whose server proof does not match the expected "SP". -/
def sessWrong : Session :=
  { sessA with serverProof := "WRONG" }

/-- Baseline configuration: explicit credentials, persistence enabled, no
clear/force flags, no duration preference. -/
def cfgBase : Config :=
  { username := "alice", password := "pw", clearSession := false,
    noSession := false, forceRefresh := false, sessionDuration := 0 }

/-- Baseline oracle: every remote operation succeeds, the SRP engine
expects server proof "SP", and the remote returns exactly that. -/
def oraBase : Oracle :=
  { promptUsername := "alice", promptPassword := "pw",
    prompt2FA := "123456",
    srp := fun _ _ _ =>
      Except.ok { clientEphemeral := "ce", clientProof := "cp",
                  expectedServerProof := "SP" },
    authInfoResp := Wire.resp 200 (some infoPlain),
    authResp := Wire.resp 200 (some sessA),
    twoFAResp := Wire.resp 200 (some ⟨1000, ["twofactor", "vpn"], ""⟩),
    refreshResp := Wire.resp 200 (some sessA),
    verifyResp := Wire.resp 200 (some ()) }

/-- Oracle whose proof submission returns a non-matching server proof. -/
def oraMismatch : Oracle :=
  { oraBase with authResp := Wire.resp 200 (some sessWrong) }

/-- Session holding only the twofactor scope (no VPN capability). -/
def sessTwoFA : Session :=
  { sessA with scopes := ["twofactor"] }

/-- Saved session for "alice" expiring 30 days after time 0. -/
def ssReuse : SavedSession :=
  { session := sessA, username := "alice", savedAt := 0,
    expiresAt := 2592000000000000 }

/-- Saved twofactor-only session for "alice" expiring 30 days after time
0. -/
def ssTwoFA : SavedSession :=
  { session := sessTwoFA, username := "alice", savedAt := 0,
    expiresAt := 2592000000000000 }

/-- Saved session for "alice" expiring 3 days after time 0. -/
def ssSoon : SavedSession :=
  { session := sessA, username := "alice", savedAt := 0,
    expiresAt := 259200000000000 }

/-- Oracle whose refresh endpoint answers HTTP 400. -/
def oraRefreshFail : Oracle :=
  { oraBase with refreshResp := Wire.resp 400 none }

/-- Oracle prompting a second-factor code with a non-digit character. -/
def oraBadCode : Oracle :=
  { oraBase with prompt2FA := "12a456" }

/-- Configuration with no username supplied. -/
def cfgNoUser : Config :=
  { cfgBase with username := "" }

/-- Oracle answering every prompt with the empty string. -/
def oraEmptyPrompts : Oracle :=
  { oraBase with promptUsername := "", promptPassword := "" }

/-- Configuration with no password supplied and persistence disabled. -/
def cfgEmptyPw : Config :=
  { cfgBase with password := "", noSession := true }

/-- Helper: the scope-flag fold of `checkSessionScopes`, with an arbitrary
starting accumulator. -/
theorem scopesFold_spec (l : List String) (a : Bool × Bool) :
    l.foldl
      (fun acc scope =>
        if scope = "vpn" then (true, acc.2)
        else if scope = "twofactor" then (acc.1, true)
        else acc) a =
      (a.1 || l.contains "vpn", a.2 || l.contains "twofactor") := by
  induction l generalizing a with
  | nil => simp
  | cons x xs ih =>
    by_cases h1 : x = "vpn"
    · subst h1
      simp [ih, List.contains_cons]
    · by_cases h2 : x = "twofactor"
      · subst h2
        simp [ih, List.contains_cons, h1]
      · simp [ih, List.contains_cons, h1, h2, Ne.symm h1, Ne.symm h2]

/-- Helper: `checkSessionScopes` computes exactly the two membership
flags. -/
theorem checkSessionScopes_spec (session : Session) :
    checkSessionScopes session =
      (session.scopes.contains "vpn", session.scopes.contains "twofactor") := by
  unfold checkSessionScopes
  simpa using scopesFold_spec session.scopes (false, false)

/-- C2: the persisted absolute expiry equals
`min(now + requestedDuration, now + serverDeclaredLifetime)` when a
non-zero duration is requested, and `now + serverDeclaredLifetime` when
the requested duration is the sentinel 0. -/
theorem C2_saved_expiry (now : Int) (session : Session) (username : String)
    (duration : Int) :
    (SessionStore.save now session username duration).expiresAt =
      if duration = 0 then
        now + session.expiresIn * nsPerSecond
      else
        min (now + duration) (now + session.expiresIn * nsPerSecond) := by
  unfold SessionStore.save
  by_cases hd : duration = 0
  · simp [hd]
  · simp only [hd, if_false]
    rw [min_def]
    split <;> split <;> omega

/-- C10 amended: `load` deletes the persisted file only when the stored
session is expired, and a file stored under a different username is
reported absent with the file left untouched by `load`; but the single
fixed-path store gives the load step's restraint no whole-run force — a
later save with persistence enabled overwrites whatever file is present,
whoever owns it, with the current account's session. -/
theorem C10_load_delete_only_expired (now : Int) (username : String)
    (st : Store) :
    ((SessionStore.load now username st).2 ≠ st →
      ∃ ss, st = some (FileContent.parsable ss) ∧ ss.username = username ∧
        ss.expiresAt < now ∧ (SessionStore.load now username st).2 = none) ∧
    (∀ ss, st = some (FileContent.parsable ss) → ss.username ≠ username →
      SessionStore.load now username st = (Except.ok none, st)) ∧
    (∀ (cfg : Config) (session : Session) (prev : Store),
      cfg.noSession = false →
      saveSessionIfEnabled cfg now session prev =
        some (FileContent.parsable
          (SessionStore.save now session cfg.username
            cfg.sessionDuration))) := by
  refine ⟨?_, ?_, ?_⟩
  · intro hne
    match st with
    | none => simp [SessionStore.load] at hne
    | some (FileContent.garbage raw) => simp [SessionStore.load] at hne
    | some (FileContent.parsable ss) =>
      by_cases h1 : ss.username = username
      · by_cases h2 : ss.expiresAt < now
        · exact ⟨ss, rfl, h1, h2, by simp [SessionStore.load, h1, h2]⟩
        · simp [SessionStore.load, h1, h2] at hne
      · simp [SessionStore.load, h1] at hne
  · intro ss hst hne
    subst hst
    simp [SessionStore.load, hne]
  · intro cfg session prev hNo
    simp [saveSessionIfEnabled, hNo]

/-- Witness for C10 amended: loading "alice" against a file saved for
"bob" yields absent with the file in place, yet the subsequent save under
"alice" replaces bob's file. -/
theorem C10_load_delete_only_expired_witness :
    SessionStore.load 0 "alice" (some (FileContent.parsable ssBob)) =
      (Except.ok none, some (FileContent.parsable ssBob)) ∧
    saveSessionIfEnabled cfgBase 0 sessA (some (FileContent.parsable ssBob)) =
      some (FileContent.parsable
        (SessionStore.save 0 sessA cfgBase.username
          cfgBase.sessionDuration)) := by
  have h := C10_load_delete_only_expired 0 "alice"
    (some (FileContent.parsable ssBob))
  exact ⟨h.2.1 ssBob rfl (by decide),
    h.2.2 cfgBase sessA (some (FileContent.parsable ssBob)) rfl⟩

/-- C10 counterexample: a full run under "alice" with bob's unexpired
file present succeeds via fresh login and overwrites bob's persisted
session with alice's, so a run under one account can destroy another
account's persisted session. -/
theorem C10_counterexample :
    ssBob.username = "bob" ∧ cfgBase.username = "alice" ∧
    ¬ ssBob.expiresAt < 0 ∧
    Authenticate cfgBase oraBase 0 7 (some (FileContent.parsable ssBob)) =
      (Except.ok sessA,
       some (FileContent.parsable (SessionStore.save 0 sessA "alice" 0)),
       [Event.callAuthInfo, Event.callAuth]) ∧
    SessionStore.save 0 sessA "alice" 0 ≠ ssBob := by
  refine ⟨rfl, rfl, by decide, ?_, by decide⟩
  decide

/-- C5 counterexample: a well-formed auth-info response carrying the
multi-status code 1001 is rejected by `getAuthInfo` rather than accepted
as success, so the four operations do not all treat 1001 like 1000. -/
theorem C5_counterexample :
    infoMulti.code = APICodeMultiStatus ∧
    infoMulti.modulus ≠ "" ∧ infoMulti.serverEphemeral ≠ "" ∧
    getAuthInfo (Wire.resp 200 (some infoMulti)) =
      Except.error (AuthErr.authInfoCode 1001) := by
  refine ⟨rfl, by decide, by decide, ?_⟩
  decide

/-- C5 amended: only `RefreshSession` treats the multi-status code 1001
as success; `getAuthInfo`, `sendAuthRequest` and `submit2FA` accept
exactly the code 1000 and reject a 1001 payload. -/
theorem C5_amended (info : AuthInfoResponse) (s : Session) (r : TwoFAResp)
    (sess : Session) :
    (info.code = APICodeMultiStatus →
      getAuthInfo (Wire.resp 200 (some info)) =
        Except.error (AuthErr.authInfoCode APICodeMultiStatus)) ∧
    (s.code = APICodeMultiStatus →
      sendAuthRequest (Wire.resp 200 (some s)) =
        Except.error (AuthErr.apiError APICodeMultiStatus)) ∧
    (r.code = APICodeMultiStatus →
      submit2FA (Wire.resp 200 (some r)) =
        Except.error (AuthErr.twoFAFailed APICodeMultiStatus)) ∧
    ((sess.code = CodeSuccess ∨ sess.code = APICodeMultiStatus) →
      RefreshSession (Wire.resp 200 (some sess)) = Except.ok sess) := by
  refine ⟨?_, ?_, ?_, ?_⟩
  · intro h
    simp [getAuthInfo, h, APICodeMultiStatus, CodeSuccess]
  · intro h
    simp [sendAuthRequest, h, APICodeMultiStatus, CodeSuccess,
      CodeMailboxPasswordError]
  · intro h
    simp [submit2FA, h, APICodeMultiStatus, CodeSuccess]
  · intro h
    have hs : IsSuccessCode sess.code = true := by
      rcases h with h | h <;> simp [IsSuccessCode, h]
    simp [RefreshSession, hs]

/-- Witness for C5 amended, at code-1001 bodies: auth-info, proof
submission and second-factor submission reject it while refresh accepts
it. -/
theorem C5_amended_witness :
    getAuthInfo (Wire.resp 200 (some infoMulti)) =
      Except.error (AuthErr.authInfoCode APICodeMultiStatus) ∧
    sendAuthRequest (Wire.resp 200 (some sessMulti)) =
      Except.error (AuthErr.apiError APICodeMultiStatus) ∧
    submit2FA (Wire.resp 200 (some ⟨1001, ["vpn"], ""⟩)) =
      Except.error (AuthErr.twoFAFailed APICodeMultiStatus) ∧
    RefreshSession (Wire.resp 200 (some sessMulti)) = Except.ok sessMulti := by
  have h := C5_amended infoMulti sessMulti ⟨1001, ["vpn"], ""⟩ sessMulti
  exact ⟨h.1 rfl, h.2.1 rfl, h.2.2.1 rfl, h.2.2.2 (Or.inr rfl)⟩

/-- C6 counterexample: both the 1-digit code "1" and the 6-digit code
"123456" pass the local validation, so no fixed length is required of a
second-factor code. -/
theorem C6_counterexample :
    get2FACode "1" = Except.ok "1" ∧
    get2FACode "123456" = Except.ok "123456" ∧
    ("1" : String).length ≠ ("123456" : String).length := by
  refine ⟨?_, ?_, by decide⟩ <;> decide

/-- C6 amended: a second-factor code is accepted iff its trimmed form is
non-empty and all digits; a locally rejected code in the scope-upgrade
path produces no network call at all. -/
theorem C6_amended (input : String) (ora : Oracle) (session : Session) :
    (get2FACode input = Except.ok (trimSpace input) ↔
      trimSpace input ≠ "" ∧
        ∀ c ∈ (trimSpace input).toList, '0' ≤ c ∧ c ≤ '9') ∧
    (∀ e, get2FACode ora.prompt2FA = Except.error e →
      "vpn" ∉ session.scopes → "twofactor" ∈ session.scopes →
      upgradeSessionIfNeeded ora session = (Except.error e, [])) := by
  constructor
  · unfold get2FACode
    by_cases h0 : trimSpace input = ""
    · simp [h0]
    · by_cases h1 : (trimSpace input).toList.any
        (fun c => decide (c < '0') || decide ('9' < c)) = true
      · simp only [h0, if_false, h1, if_true]
        constructor
        · intro h; cases h
        · intro ⟨_, hall⟩
          rw [List.any_eq_true] at h1
          obtain ⟨c, hc, hbad⟩ := h1
          obtain ⟨hlo, hhi⟩ := hall c hc
          simp only [Bool.or_eq_true, decide_eq_true_eq] at hbad
          rcases hbad with hb | hb
          · exact absurd hlo (not_le.mpr hb)
          · exact absurd hhi (not_le.mpr hb)
      · simp only [h0, if_false, h1]
        simp only [Bool.not_eq_true] at h1
        rw [List.any_eq_false] at h1
        constructor
        · intro _
          refine ⟨h0, fun c hc => ?_⟩
          have hcn := h1 c hc
          simp only [Bool.or_eq_true, decide_eq_true_eq, not_or, not_lt] at hcn
          exact hcn
        · intro _; simp
  · intro e he hv h2
    unfold upgradeSessionIfNeeded
    rw [checkSessionScopes_spec]
    simp [hv, h2, he]

/-- C1: when the proof submission succeeds but the returned server proof
differs from the locally precomputed expected proof, the run fails with
the proof-mismatch error: no session is returned and the store is exactly
what the existing-session phase left, so the fresh session is never
persisted. -/
theorem C1_proof_mismatch_fails_run
    (cfg : Config) (ora : Oracle) (now refreshDays : Int) (st : Store)
    (cfg1 : Config) (st1 : Store) (ev1 : List Event)
    (authInfo : AuthInfoResponse) (proofs : Proofs) (session : Session)
    (hUser : ensureUsername cfg ora = Except.ok cfg1)
    (hExisting : handleExistingSession cfg1 ora now refreshDays st =
      (none, st1, ev1))
    (hInfo : getAuthInfo ora.authInfoResp = Except.ok authInfo)
    (hSrp : ora.srp authInfo (ensurePassword cfg1 ora).username
      (ensurePassword cfg1 ora).password = Except.ok proofs)
    (h2fa : ¬(authInfo.twoFA.enabled = EnabledTrue ∧
              authInfo.twoFA.totp = EnabledTrue) ∨
            ∃ c, get2FACode ora.prompt2FA = Except.ok c)
    (hSend : sendAuthRequest ora.authResp = Except.ok session)
    (hMismatch : session.serverProof ≠ proofs.expectedServerProof) :
    Authenticate cfg ora now refreshDays st =
      (Except.error AuthErr.serverProofMismatch, st1,
       ev1 ++ [Event.callAuthInfo, Event.callAuth]) := by
  have hFresh : performFreshAuth (ensurePassword cfg1 ora) ora =
      (Except.error AuthErr.serverProofMismatch,
       [Event.callAuthInfo, Event.callAuth]) := by
    by_cases hcond : authInfo.twoFA.enabled = EnabledTrue ∧
        authInfo.twoFA.totp = EnabledTrue
    · obtain ⟨c, hc⟩ := h2fa.resolve_left (not_not_intro hcond)
      simp only [performFreshAuth, hInfo, hSrp, if_pos hcond, hc, hSend,
        if_pos hMismatch]
    · simp only [performFreshAuth, hInfo, hSrp, if_neg hcond, hSend,
        if_pos hMismatch]
  simp only [Authenticate, hUser, hExisting, freshLoginPath, hFresh]

/-- Witness for C1: a concrete fresh run against a remote returning proof
"WRONG" while "SP" is expected fails with the mismatch error and persists
nothing. -/
theorem C1_proof_mismatch_fails_run_witness :
    Authenticate cfgBase oraMismatch 0 7 none =
      (Except.error AuthErr.serverProofMismatch, none,
       [Event.callAuthInfo, Event.callAuth]) :=
  C1_proof_mismatch_fails_run cfgBase oraMismatch 0 7 none cfgBase none []
    infoPlain
    { clientEphemeral := "ce", clientProof := "cp",
      expectedServerProof := "SP" }
    sessWrong (by decide) (by decide) (by decide) rfl
    (Or.inl (by decide)) (by decide) (by decide)

/-- Helper: the result component of the fresh-login path does not depend
on the incoming store or event prefix. -/
theorem freshLoginPath_fst (cfg : Config) (ora : Oracle) (now : Int)
    (st st' : Store) (ev ev' : List Event) :
    (freshLoginPath cfg ora now st ev).1 =
      (freshLoginPath cfg ora now st' ev').1 := by
  unfold freshLoginPath
  rcases hp : performFreshAuth (ensurePassword cfg ora) ora with ⟨r, ev2⟩
  cases r with
  | error e => simp [hp]
  | ok s =>
    rcases hu : upgradeSessionIfNeeded ora s with ⟨r3, ev3⟩
    cases r3 <;> simp [hp, hu]

/-- C7: with a loaded owned unexpired session, no force-refresh, expiry
not both positive and below the threshold, and a successful verification,
the session is reused as-is: the run returns it, makes only the verify
call, and leaves the persisted file exactly as it was. -/
theorem C7_reuse_no_mutation
    (cfg : Config) (ora : Oracle) (now refreshDays : Int) (ss : SavedSession)
    (hClear : cfg.clearSession = false) (hNo : cfg.noSession = false)
    (hForce : cfg.forceRefresh = false)
    (hUser : cfg.username ≠ "")
    (hOwn : ss.username = cfg.username)
    (hNotExpired : ¬ ss.expiresAt < now)
    (hNotSoon : ¬ (ss.expiresAt - now < refreshDays * 24 * hourNs ∧
      0 < ss.expiresAt - now))
    (hVerify : VerifySession ora.verifyResp = true) :
    Authenticate cfg ora now refreshDays (some (FileContent.parsable ss)) =
      (Except.ok ss.session, some (FileContent.parsable ss),
       [Event.callVerify]) := by
  have hLoad : SessionStore.load now cfg.username
      (some (FileContent.parsable ss)) =
      (Except.ok (some (ss.session, ss.expiresAt - now)),
       some (FileContent.parsable ss)) := by
    simp [SessionStore.load, hOwn, hNotExpired]
  have hTry : tryExistingSession cfg ora now refreshDays
      (some (FileContent.parsable ss)) =
      (Except.ok (some ss.session), some (FileContent.parsable ss),
       [Event.callVerify]) := by
    simp only [tryExistingSession, hLoad, hForce, Bool.false_eq_true,
      if_false, if_neg hNotSoon, hVerify, if_true]
  have hEx : handleExistingSession cfg ora now refreshDays
      (some (FileContent.parsable ss)) =
      (some ss.session, some (FileContent.parsable ss),
       [Event.callVerify]) := by
    simp only [handleExistingSession, hClear, hNo, Bool.false_eq_true,
      if_false, hTry]
  have hU : ensureUsername cfg ora = Except.ok cfg := by
    simp [ensureUsername, hUser]
  simp only [Authenticate, hU, hEx]

/-- Witness for C7: a concrete run over a 30-day session with a verifying
remote reuses the session and leaves the file byte-identical. -/
theorem C7_reuse_no_mutation_witness :
    Authenticate cfgBase oraBase 0 7 (some (FileContent.parsable ssReuse)) =
      (Except.ok ssReuse.session, some (FileContent.parsable ssReuse),
       [Event.callVerify]) :=
  C7_reuse_no_mutation cfgBase oraBase 0 7 ssReuse rfl rfl rfl
    (by decide) rfl (by decide) (by decide) (by decide)

/-- C8: a session file whose contents fail to parse is treated as "no
usable session": the existing-session phase yields no session and leaves
the file in place, and the run's outcome is exactly the outcome it would
have with no file at all — the parse failure never aborts the run. -/
theorem C8_parse_failure_nonfatal (cfg : Config) (ora : Oracle)
    (now refreshDays : Int) (raw : String) :
    (Authenticate cfg ora now refreshDays
        (some (FileContent.garbage raw))).1 =
      (Authenticate cfg ora now refreshDays none).1 ∧
    (cfg.clearSession = false → cfg.noSession = false →
      handleExistingSession cfg ora now refreshDays
          (some (FileContent.garbage raw)) =
        (none, some (FileContent.garbage raw), [])) := by
  constructor
  · unfold Authenticate
    cases hu : ensureUsername cfg ora with
    | error e => simp
    | ok cfg1 =>
      by_cases hc : cfg1.clearSession
      · simp [handleExistingSession, hc]
      · by_cases hn : cfg1.noSession
        · simp only [handleExistingSession, hc, Bool.false_eq_true,
            if_false, hn, if_true]
          exact freshLoginPath_fst cfg1 ora now
            (some (FileContent.garbage raw)) none [] []
        · have hTryG : tryExistingSession cfg1 ora now refreshDays
              (some (FileContent.garbage raw)) =
              (Except.error AuthErr.parseError,
               some (FileContent.garbage raw), []) := by
            simp [tryExistingSession, SessionStore.load]
          have hTryN : tryExistingSession cfg1 ora now refreshDays none =
              (Except.ok none, none, []) := by
            simp [tryExistingSession, SessionStore.load]
          simp only [handleExistingSession, hc, hn, Bool.false_eq_true,
            if_false, hTryG, hTryN]
          exact freshLoginPath_fst cfg1 ora now
            (some (FileContent.garbage raw)) none [] []
  · intro hc hn
    simp [handleExistingSession, hc, hn, tryExistingSession,
      SessionStore.load]

/-- Witness for C8: with the baseline configuration, a garbage session
file is reported as no usable session with the file left in place. -/
theorem C8_parse_failure_nonfatal_witness :
    handleExistingSession cfgBase oraBase 0 7
        (some (FileContent.garbage "junk")) =
      (none, some (FileContent.garbage "junk"), []) :=
  (C8_parse_failure_nonfatal cfgBase oraBase 0 7 "junk").2 rfl rfl

/-- C9 counterexample: with an empty password flag and an empty masked
prompt input, the run does not fail on the empty secret — it proceeds
through the full SRP exchange and succeeds. -/
theorem C9_counterexample :
    cfgEmptyPw.password = "" ∧ oraEmptyPrompts.promptPassword = "" ∧
    Authenticate cfgEmptyPw oraEmptyPrompts 0 7 none =
      (Except.ok sessA, none, [Event.callAuthInfo, Event.callAuth]) := by
  refine ⟨rfl, rfl, ?_⟩
  decide

/-- C9 amended: an empty identity is a fatal input error (empty prompt
input aborts the run), but the secret is never validated: `ensurePassword`
stores whatever the masked prompt returned — including the empty string —
and authentication proceeds with it. -/
theorem C9_amended (cfg : Config) (ora : Oracle) (now refreshDays : Int)
    (st : Store) :
    (cfg.username = "" → trimSpace ora.promptUsername = "" →
      Authenticate cfg ora now refreshDays st =
        (Except.error AuthErr.emptyUsername, st, [])) ∧
    (ensurePassword cfg ora).password =
      (if cfg.password = "" then ora.promptPassword else cfg.password) ∧
    (ensurePassword cfg ora).username = cfg.username := by
  refine ⟨?_, ?_, ?_⟩
  · intro h1 h2
    simp [Authenticate, ensureUsername, h1, h2]
  · unfold ensurePassword
    split <;> rfl
  · unfold ensurePassword
    split <;> rfl

/-- Witness for C9 amended: an empty username prompt input is fatal. -/
theorem C9_amended_witness :
    Authenticate cfgNoUser oraEmptyPrompts 0 7 none =
      (Except.error AuthErr.emptyUsername, none, []) :=
  (C9_amended cfgNoUser oraEmptyPrompts 0 7 none).1 rfl (by decide)

/-- C3 counterexample: a reused session holding the twofactor scope but
not the VPN scope is returned exactly as stored, with only the verify
call made — no second-factor prompt, no `submitSecondFactor` call, and no
scope replacement — so the upgrade step is not entered from the reused
state. -/
theorem C3_counterexample :
    ("twofactor" ∈ ssTwoFA.session.scopes ∧
      "vpn" ∉ ssTwoFA.session.scopes) ∧
    Authenticate cfgBase oraBase 0 7 (some (FileContent.parsable ssTwoFA)) =
      (Except.ok ssTwoFA.session, some (FileContent.parsable ssTwoFA),
       [Event.callVerify]) ∧
    ssTwoFA.session.scopes = ["twofactor"] := by
  refine ⟨by decide, ?_, by decide⟩
  decide

/-- C3 amended: the scope inspection applies only to freshly
authenticated sessions.  On the fresh path: the upgrade is skipped when
the VPN scope is present or the twofactor scope absent; otherwise a
second-factor code is prompted (local rejection makes no remote call),
`submitSecondFactor` is called and the session's scopes are replaced by
the returned set; an upgrade failure is fatal for the run.  A session
obtained from the existing-session phase is returned without any scope
inspection. -/
theorem C3_upgrade_fresh_only (ora : Oracle) (session : Session) :
    (("vpn" ∈ session.scopes ∨ "twofactor" ∉ session.scopes) →
      upgradeSessionIfNeeded ora session = (Except.ok session, [])) ∧
    ("vpn" ∉ session.scopes → "twofactor" ∈ session.scopes →
      (∀ c scopes, get2FACode ora.prompt2FA = Except.ok c →
        submit2FA ora.twoFAResp = Except.ok scopes →
        upgradeSessionIfNeeded ora session =
          (Except.ok { session with scopes := scopes },
           [Event.call2FA])) ∧
      (∀ c e, get2FACode ora.prompt2FA = Except.ok c →
        submit2FA ora.twoFAResp = Except.error e →
        upgradeSessionIfNeeded ora session =
          (Except.error e, [Event.call2FA]))) ∧
    (∀ cfg now refreshDays st cfg1 st1 ev1 s ev2 e ev3,
      ensureUsername cfg ora = Except.ok cfg1 →
      handleExistingSession cfg1 ora now refreshDays st = (none, st1, ev1) →
      performFreshAuth (ensurePassword cfg1 ora) ora =
        (Except.ok s, ev2) →
      upgradeSessionIfNeeded ora s = (Except.error e, ev3) →
      Authenticate cfg ora now refreshDays st =
        (Except.error e, st1, ev1 ++ ev2 ++ ev3)) ∧
    (∀ cfg now refreshDays st cfg1 st1 ev1 s,
      ensureUsername cfg ora = Except.ok cfg1 →
      handleExistingSession cfg1 ora now refreshDays st =
        (some s, st1, ev1) →
      Authenticate cfg ora now refreshDays st =
        (Except.ok s, st1, ev1)) := by
  refine ⟨?_, ?_, ?_, ?_⟩
  · intro hSkip
    have hcond : (session.scopes.contains "vpn" ||
        !session.scopes.contains "twofactor") = true := by
      simpa using hSkip
    unfold upgradeSessionIfNeeded
    rw [checkSessionScopes_spec]
    simp only [hcond, if_true]
  · intro hv h2
    have hcv : session.scopes.contains "vpn" = false := by simpa using hv
    have hc2 : session.scopes.contains "twofactor" = true :=
      List.elem_eq_true_of_mem h2
    have hcond : (session.scopes.contains "vpn" ||
        !session.scopes.contains "twofactor") = false := by
      simpa using ⟨hv, h2⟩
    constructor
    · intro c scopes hc hs
      unfold upgradeSessionIfNeeded
      rw [checkSessionScopes_spec]
      simp only [hcond, Bool.false_eq_true, if_false, hc, hs]
    · intro c e hc hs
      unfold upgradeSessionIfNeeded
      rw [checkSessionScopes_spec]
      simp only [hcond, Bool.false_eq_true, if_false, hc, hs]
  · intro cfg now refreshDays st cfg1 st1 ev1 s ev2 e ev3 hU hE hF hUp
    simp only [Authenticate, hU, hE, freshLoginPath, hF, hUp]
  · intro cfg now refreshDays st cfg1 st1 ev1 s hU hE
    simp only [Authenticate, hU, hE]

/-- Witness for C3 amended: a fresh session with only the twofactor scope
is upgraded through a successful second-factor submission, its scopes
replaced by the returned set. -/
theorem C3_upgrade_fresh_only_witness :
    upgradeSessionIfNeeded oraBase sessTwoFA =
      (Except.ok { sessTwoFA with scopes := ["twofactor", "vpn"] },
       [Event.call2FA]) :=
  ((C3_upgrade_fresh_only oraBase sessTwoFA).2.1 (by decide)
    (by decide)).1 "123456" ["twofactor", "vpn"] (by decide) (by decide)

/-- Helper: the fresh-authentication sequence never makes a refresh
call. -/
theorem performFreshAuth_no_refresh (cfg : Config) (ora : Oracle) :
    Event.callRefresh ∉ (performFreshAuth cfg ora).2 := by
  unfold performFreshAuth
  repeat' split
  all_goals simp

/-- Helper: the scope-upgrade step never makes a refresh call. -/
theorem upgradeSessionIfNeeded_no_refresh (ora : Oracle)
    (session : Session) :
    Event.callRefresh ∉ (upgradeSessionIfNeeded ora session).2 := by
  unfold upgradeSessionIfNeeded
  repeat' split
  all_goals simp

/-- Helper: `ensurePassword` only ever changes the password field. -/
theorem ensurePassword_fields (cfg : Config) (ora : Oracle) :
    (ensurePassword cfg ora).username = cfg.username ∧
    (ensurePassword cfg ora).clearSession = cfg.clearSession ∧
    (ensurePassword cfg ora).noSession = cfg.noSession ∧
    (ensurePassword cfg ora).forceRefresh = cfg.forceRefresh ∧
    (ensurePassword cfg ora).sessionDuration = cfg.sessionDuration := by
  unfold ensurePassword
  split <;> simp

/-- C4: when a loaded owned unexpired session triggers a refresh
(force-refresh, or positive expiry below the threshold) and the refresh
fails, the stale file is deleted and the run becomes exactly the
fresh-login path after a single refresh call; when that fresh path
succeeds with persistence enabled the run ends with the new session
persisted, and the refresh is never retried. -/
theorem C4_refresh_failure_fallback
    (cfg : Config) (ora : Oracle) (now refreshDays : Int)
    (ss : SavedSession) (e : AuthErr)
    (hClear : cfg.clearSession = false) (hNo : cfg.noSession = false)
    (hUser : cfg.username ≠ "")
    (hOwn : ss.username = cfg.username)
    (hNotExpired : ¬ ss.expiresAt < now)
    (hTrig : cfg.forceRefresh = true ∨
      (ss.expiresAt - now < refreshDays * 24 * hourNs ∧
       0 < ss.expiresAt - now))
    (hRefresh : RefreshSession ora.refreshResp = Except.error e) :
    Authenticate cfg ora now refreshDays (some (FileContent.parsable ss)) =
      freshLoginPath cfg ora now none [Event.callRefresh] ∧
    (∀ s ev2 s2 ev3,
      performFreshAuth (ensurePassword cfg ora) ora = (Except.ok s, ev2) →
      upgradeSessionIfNeeded ora s = (Except.ok s2, ev3) →
      Authenticate cfg ora now refreshDays
          (some (FileContent.parsable ss)) =
        (Except.ok s2,
         some (FileContent.parsable
           (SessionStore.save now s2 cfg.username cfg.sessionDuration)),
         [Event.callRefresh] ++ ev2 ++ ev3) ∧
      ([Event.callRefresh] ++ ev2 ++ ev3).count Event.callRefresh = 1) := by
  have hU : ensureUsername cfg ora = Except.ok cfg := by
    simp [ensureUsername, hUser]
  have hLoad : SessionStore.load now cfg.username
      (some (FileContent.parsable ss)) =
      (Except.ok (some (ss.session, ss.expiresAt - now)),
       some (FileContent.parsable ss)) := by
    simp [SessionStore.load, hOwn, hNotExpired]
  have hHR : handleSessionRefresh cfg ora now ss.session
      (some (FileContent.parsable ss)) =
      (Except.error e, none, [Event.callRefresh]) := by
    simp only [handleSessionRefresh, hRefresh]
  have hTry : tryExistingSession cfg ora now refreshDays
      (some (FileContent.parsable ss)) =
      (Except.error e, none, [Event.callRefresh]) := by
    cases hF : cfg.forceRefresh with
    | true =>
      simp only [tryExistingSession, hLoad, hF, if_true, hHR]
      rfl
    | false =>
      rcases hTrig with h | hSoon
      · rw [hF] at h
        cases h
      · simp only [tryExistingSession, hLoad, hF, Bool.false_eq_true,
          if_false, if_pos hSoon, hHR]
        rfl
  have hEx : handleExistingSession cfg ora now refreshDays
      (some (FileContent.parsable ss)) =
      (none, none, [Event.callRefresh]) := by
    simp only [handleExistingSession, hClear, hNo, Bool.false_eq_true,
      if_false, hTry]
  have hMain : Authenticate cfg ora now refreshDays
      (some (FileContent.parsable ss)) =
      freshLoginPath cfg ora now none [Event.callRefresh] := by
    simp only [Authenticate, hU, hEx]
  refine ⟨hMain, ?_⟩
  intro s ev2 s2 ev3 hF hUp
  have hSave : saveSessionIfEnabled (ensurePassword cfg ora) now s2 none =
      some (FileContent.parsable
        (SessionStore.save now s2 cfg.username cfg.sessionDuration)) := by
    obtain ⟨h1, _, h3, _, h5⟩ := ensurePassword_fields cfg ora
    simp [saveSessionIfEnabled, h1, h3, h5, hNo]
  constructor
  · rw [hMain]
    simp only [freshLoginPath, hF, hUp, hSave]
  · have hnr2 : Event.callRefresh ∉ ev2 := by
      have := performFreshAuth_no_refresh (ensurePassword cfg ora) ora
      rw [hF] at this
      exact this
    have hnr3 : Event.callRefresh ∉ ev3 := by
      have := upgradeSessionIfNeeded_no_refresh ora s
      rw [hUp] at this
      exact this
    simp [List.count_append, List.count_eq_zero.mpr hnr2,
      List.count_eq_zero.mpr hnr3]

/-- Witness for C4: a concrete session 3 days from expiry, a refresh
endpoint answering HTTP 400, and a working fresh-login remote: the run
deletes the stale file, falls back to fresh login, persists the new
session, and makes exactly one refresh call. -/
theorem C4_refresh_failure_fallback_witness :
    Authenticate cfgBase oraRefreshFail 0 7
        (some (FileContent.parsable ssSoon)) =
      (Except.ok sessA,
       some (FileContent.parsable (SessionStore.save 0 sessA "alice" 0)),
       [Event.callRefresh, Event.callAuthInfo, Event.callAuth]) ∧
    [Event.callRefresh, Event.callAuthInfo,
      Event.callAuth].count Event.callRefresh = 1 := by
  have h := (C4_refresh_failure_fallback cfgBase oraRefreshFail 0 7 ssSoon
    (AuthErr.refreshFailed 400) rfl rfl (by decide) (by decide) (by decide)
    (Or.inr (by decide)) (by decide)).2 sessA
    [Event.callAuthInfo, Event.callAuth] sessA [] (by decide) (by decide)
  exact ⟨by simpa using h.1, by simp⟩

/-- Witness for C6 amended: the code "12a456" is rejected locally in the
scope-upgrade path with no network call made. -/
theorem C6_amended_witness :
    upgradeSessionIfNeeded oraBadCode sessTwoFA =
      (Except.error AuthErr.nonNumericCode, []) :=
  (C6_amended "12a456" oraBadCode sessTwoFA).2 AuthErr.nonNumericCode
    (by decide) (by decide) (by decide)
